import Mathlib

/-!
Session lifecycle manager (package `session`, file `session/manager.go`).

A shallow embedding of the provider-side session manager.

* Go values that may be `nil` are `Option`s: an `error` is `Option Error`
  (`none` is `nil`), a `DestroyCallback` is `Option (DestroyCallback W)`, a
  `ServiceConfiguration` (Go `interface{}`) is `Option Cfg`.
* The collaborators of the manager (ID generator, promise processor, destroy
  callbacks) are arbitrary functions on an explicit world state `W`; they
  return their Go result together with the next world.
* Every call the manager makes on a collaborator, on the storage or on its
  mutex is recorded, in program order, in `State.trace`.
* `D` is the type of the part of a service proposal other than its `ID`.
-/

namespace session

/-- Session identifier, Go `type ID string`. -/
abbrev ID := String

/-- Identity of a peer, Go `identity.Identity` (a struct holding an address string). -/
structure Identity where
  Address : String
deriving DecidableEq, Repr

/-- Error values seen by the manager. The first three are the package variables of
`manager.go`; `ErrSessionStileAlive` is the sentinel the manager and the WireGuard
service compare against; `other` stands for every error made elsewhere. -/
inductive Error where
  | ErrorInvalidProposal
  | ErrorSessionNotExists
  | ErrorWrongSessionOwner
  | ErrSessionStileAlive
  | other (msg : String)
deriving DecidableEq, Repr

/-- Modelled from the spec: the declaration of `market.ServiceProposal` is not among
the sources. The manager reads its integer `ID`; everything else ("descriptor") is
kept as one field of an arbitrary type `D`. -/
structure ServiceProposal (D : Type) where
  ID : Int
  descriptor : D
deriving DecidableEq, Repr

/-- Service configuration, Go `interface{}`: `none` is the nil interface value. -/
abbrev ServiceConfiguration (Cfg : Type) := Option Cfg

/-- Destroy callback, Go `type DestroyCallback func(dryRun bool) error`, acting on the
external world `W`. -/
abbrev DestroyCallback (W : Type) := Bool → W → Option Error × W

/-- Modelled from the spec: the constant `dryRun` of the package is not among the
sources. The idle monitor probes with `dryRun` ("dry-run = true") and `Destroy`
tears down with `!dryRun` ("dry-run = false"). -/
def dryRun : Bool := true

/-- Modelled from the spec: the declaration of `Session` is not among the sources.
Its fields are the four fields the manager and its test read and write. -/
structure Session (Cfg W : Type) where
  ID : ID
  ConsumerID : Identity
  Config : ServiceConfiguration Cfg
  DestroyCallback : Option (DestroyCallback W)

/-- The zero value `Session{}` of Go. -/
def Session.zero {Cfg W : Type} : Session Cfg W :=
  { ID := "", ConsumerID := { Address := "" }, Config := none, DestroyCallback := none }

/-- Modelled from the spec: the in-memory implementation of the `Storage` interface
(`NewStorageMemory`) is not among the sources. It is a map from session ID to
session record. -/
structure StorageMemory (Cfg W : Type) where
  sessionMap : ID → Option (Session Cfg W)

/-- The empty storage, `NewStorageMemory()`. -/
def NewStorageMemory {Cfg W : Type} : StorageMemory Cfg W :=
  { sessionMap := fun _ => none }

/-- Storage `Add`: the record is stored under its own ID, replacing a previous one. -/
def StorageMemory.Add {Cfg W : Type} (storage : StorageMemory Cfg W)
    (sessionInstance : Session Cfg W) : StorageMemory Cfg W :=
  { sessionMap := fun i => if i = sessionInstance.ID then some sessionInstance
                           else storage.sessionMap i }

/-- Storage `Find`: `some s` is Go's `(s, true)`, `none` is `(Session{}, false)`. -/
def StorageMemory.Find {Cfg W : Type} (storage : StorageMemory Cfg W) (id : ID) :
    Option (Session Cfg W) :=
  storage.sessionMap id

/-- Storage `Remove`: deletes the key, a no-op when it is absent. -/
def StorageMemory.Remove {Cfg W : Type} (storage : StorageMemory Cfg W) (id : ID) :
    StorageMemory Cfg W :=
  { sessionMap := fun i => if i = id then none else storage.sessionMap i }

/-- One call made by the manager, as recorded in the trace. -/
inductive Event (D : Type) where
  | lock
  | unlock
  | generateID
  | start (proposal : ServiceProposal D)
  | stop
  | find (id : ID)
  | add (id : ID)
  | remove (id : ID)
  | callback (id : ID) (dryRun : Bool)
  | spawnWaitSessionEnd (id : ID)
  | logError
  | logInfo
deriving DecidableEq, Repr

/-- ID generator, Go `type IDGenerator func() (ID, error)`. -/
abbrev IDGenerator (W : Type) := W → (ID × Option Error) × W

/-- Promise processor, Go interface `PromiseProcessor`. -/
structure PromiseProcessor (D W : Type) where
  Start : ServiceProposal D → W → Option Error × W
  Stop : W → Option Error × W

/-- The immutable fields of Go's `Manager`. The storage it points to is held in
`State`, its mutex shows as `lock` and `unlock` events. -/
structure Manager (D W : Type) where
  currentProposal : ServiceProposal D
  generateID : IDGenerator W
  promiseProcessor : PromiseProcessor D W

/-- Everything the manager's methods read and change. -/
structure State (D Cfg W : Type) where
  sessionStorage : StorageMemory Cfg W
  world : W
  trace : List (Event D)

/-- Constructor `NewManager`; the `sessionStorage` argument is the initial `State`. -/
def NewManager {D W : Type} (currentProposal : ServiceProposal D) (idGenerator : IDGenerator W)
    (promiseProcessor : PromiseProcessor D W) : Manager D W :=
  { currentProposal := currentProposal
    generateID := idGenerator
    promiseProcessor := promiseProcessor }

/-- Appends one event to the trace. -/
def State.emit {D Cfg W : Type} (st : State D Cfg W) (e : Event D) : State D Cfg W :=
  { st with trace := st.trace ++ [e] }

/-- Method `createSession` of `manager.go`. -/
def Manager.createSession {D Cfg W : Type} (manager : Manager D W) (consumerID : Identity)
    (config : ServiceConfiguration Cfg) (st : State D Cfg W) :
    (Session Cfg W × Option Error) × State D Cfg W :=
  let r := manager.generateID st.world
  let st1 : State D Cfg W := { (st.emit Event.generateID) with world := r.2 }
  let sessionInstance : Session Cfg W := { (Session.zero : Session Cfg W) with ID := r.1.1 }
  match r.1.2 with
  | some err => ((sessionInstance, some err), st1)
  | none =>
    (({ sessionInstance with ConsumerID := consumerID, Config := config }, none), st1)

/-- Method `Create` of `manager.go`. The deferred `Unlock` is the last event of
every return path. -/
def Manager.Create {D Cfg W : Type} (manager : Manager D W) (consumerID : Identity)
    (proposalID : Int) (config : ServiceConfiguration Cfg)
    (destroyCallback : Option (DestroyCallback W)) (st : State D Cfg W) :
    (Session Cfg W × Option Error) × State D Cfg W :=
  let st0 := st.emit Event.lock
  if manager.currentProposal.ID ≠ proposalID then
    ((Session.zero, some Error.ErrorInvalidProposal), st0.emit Event.unlock)
  else
    let c := manager.createSession consumerID config st0
    match c.1.2 with
    | some err => ((c.1.1, some err), c.2.emit Event.unlock)
    | none =>
      let p := manager.promiseProcessor.Start manager.currentProposal c.2.world
      let st2 : State D Cfg W :=
        { (c.2.emit (Event.start manager.currentProposal)) with world := p.2 }
      match p.1 with
      | some err => ((c.1.1, some err), st2.emit Event.unlock)
      | none =>
        let sessionInstance : Session Cfg W :=
          { c.1.1 with DestroyCallback := destroyCallback }
        let st3 : State D Cfg W :=
          { (st2.emit (Event.add sessionInstance.ID)) with
            sessionStorage := st2.sessionStorage.Add sessionInstance }
        let st4 := st3.emit (Event.spawnWaitSessionEnd sessionInstance.ID)
        ((sessionInstance, none), st4.emit Event.unlock)

/-- Method `Destroy` of `manager.go`. -/
def Manager.Destroy {D Cfg W : Type} (manager : Manager D W) (consumerID : Identity)
    (sessionID : String) (st : State D Cfg W) : Option Error × State D Cfg W :=
  let st0 := (st.emit Event.lock).emit (Event.find sessionID)
  match st.sessionStorage.Find sessionID with
  | none => (some Error.ErrorSessionNotExists, st0.emit Event.unlock)
  | some sessionInstance =>
    if sessionInstance.ConsumerID ≠ consumerID then
      (some Error.ErrorWrongSessionOwner, st0.emit Event.unlock)
    else
      let p := manager.promiseProcessor.Stop st0.world
      let st1 : State D Cfg W := { (st0.emit Event.stop) with world := p.2 }
      match p.1 with
      | some err => (some err, st1.emit Event.unlock)
      | none =>
        let st2 : State D Cfg W :=
          { (st1.emit (Event.remove sessionID)) with
            sessionStorage := st1.sessionStorage.Remove sessionID }
        match sessionInstance.DestroyCallback with
        | some cb =>
          let r := cb (!dryRun) st2.world
          let st3 : State D Cfg W :=
            { (st2.emit (Event.callback sessionInstance.ID (!dryRun))) with world := r.2 }
          (r.1, st3.emit Event.unlock)
        | none => (none, st2.emit Event.unlock)

/-- One iteration of the loop of `waitSessionEnd` in `manager.go`, run at a tick of
the one-minute ticker. The Boolean is `true` when the loop goes on to the next tick
(`continue`) and `false` when the method has returned. -/
def Manager.waitSessionEndTick {D Cfg W : Type} (manager : Manager D W) (id : ID)
    (st : State D Cfg W) : Bool × State D Cfg W :=
  let st0 := st.emit (Event.find id)
  match st.sessionStorage.Find id with
  | none => (false, st0)
  | some session =>
    match session.DestroyCallback with
    | none => (false, st0)
    | some cb =>
      let r := cb dryRun st0.world
      let st1 : State D Cfg W :=
        { (st0.emit (Event.callback session.ID dryRun)) with world := r.2 }
      if r.1 = some Error.ErrSessionStileAlive then (true, st1)
      else
        let st2 := if r.1 ≠ none then st1.emit Event.logError else st1
        let st3 := st2.emit Event.logInfo
        let d := manager.Destroy session.ConsumerID session.ID st3
        let st4 := if d.1 ≠ none then d.2.emit Event.logError else d.2
        (false, st4)

/-- Method `waitSessionEnd` of `manager.go` over at most `ticks` ticks of its ticker. -/
def Manager.waitSessionEnd {D Cfg W : Type} (manager : Manager D W) (id : ID) :
    Nat → State D Cfg W → State D Cfg W
  | 0, st => st
  | ticks + 1, st =>
    let r := manager.waitSessionEndTick id st
    if r.1 then manager.waitSessionEnd id ticks r.2 else r.2

/-- Number of events of a trace that satisfy `p`. -/
def countEvents {D : Type} (p : Event D → Bool) (trace : List (Event D)) : Nat :=
  (trace.filter p).length

/-- Recognises a `Start` call on the promise processor. -/
def Event.isStart {D : Type} : Event D → Bool
  | Event.start _ => true
  | _ => false

/-- Recognises a `Stop` call on the promise processor. -/
def Event.isStop {D : Type} : Event D → Bool
  | Event.stop => true
  | _ => false

/-- Recognises a call of the ID generator. -/
def Event.isGenerateID {D : Type} : Event D → Bool
  | Event.generateID => true
  | _ => false

/-- Recognises an invocation of a destroy callback, whatever its argument. -/
def Event.isCallback {D : Type} : Event D → Bool
  | Event.callback _ _ => true
  | _ => false

/-- Recognises the invocation of the destroy callback of session `id` with `dryRun = false`. -/
def Event.isTeardownOf {D : Type} (id : ID) : Event D → Bool
  | Event.callback i b => decide (i = id) && !b
  | _ => false

/-! ## Fixtures of `manager_test.go` -/

/-- State of the test double `fakePromiseProcessor`. -/
structure fakePromiseProcessor where
  started : Bool
  proposal : ServiceProposal Unit
deriving DecidableEq, Repr

/-- World of the tests: the fake promise processor and the number of IDs handed out. -/
structure TestWorld where
  processor : fakePromiseProcessor
  generated : Nat
deriving DecidableEq, Repr

/-- Methods `Start` and `Stop` of `fakePromiseProcessor`. -/
def fakeProcessor : PromiseProcessor Unit TestWorld where
  Start := fun proposal w =>
    (none, { w with processor := { started := true, proposal := proposal } })
  Stop := fun w => (none, { w with processor := { w.processor with started := false } })

/-- Test variable `currentProposalID`. -/
def currentProposalID : Int := 68

/-- Test variable `currentProposal`. -/
def currentProposal : ServiceProposal Unit := { ID := currentProposalID, descriptor := () }

/-- Test variable `expectedID`. -/
def expectedID : ID := "mocked-id"

/-- Test function `generateSessionID`. -/
def generateSessionID : IDGenerator TestWorld :=
  fun w => ((expectedID, none), { w with generated := w.generated + 1 })

/-- Generator that hands out `"session-A"` first and `"session-B"` afterwards. -/
def generateDistinctID : IDGenerator TestWorld :=
  fun w => ((if w.generated = 0 then "session-A" else "session-B", none),
            { w with generated := w.generated + 1 })

/-- Promise processor whose `Start` and `Stop` both fail. -/
def failingProcessor : PromiseProcessor Unit TestWorld where
  Start := fun _ w => (some (Error.other "start failed"), w)
  Stop := fun w => (some (Error.other "stop failed"), w)

/-- Promise processor that starts like the fake one and whose `Stop` fails. -/
def stopFailingProcessor : PromiseProcessor Unit TestWorld where
  Start := fakeProcessor.Start
  Stop := fun w => (some (Error.other "stop failed"), w)

/-- Destroy callback that reports the session alive on a probe and fails on teardown. -/
def failingCallback : DestroyCallback TestWorld :=
  fun dry w => (if dry then some Error.ErrSessionStileAlive
                else some (Error.other "teardown failed"), w)

/-- ID generator that fails. -/
def failingGenerator : IDGenerator TestWorld :=
  fun w => (("", some (Error.other "generator failed")), w)

/-- World at the start of a test: a zero-value `fakePromiseProcessor`. -/
def testWorld : TestWorld :=
  { processor := { started := false, proposal := { ID := 0, descriptor := () } }, generated := 0 }

/-- State at the start of a test: empty storage, nothing called yet. -/
def testState : State Unit String TestWorld :=
  { sessionStorage := NewStorageMemory, world := testWorld, trace := [] }

/-- Consumer of the tests, `identity.FromAddress("deadbeef")`. -/
def deadbeef : Identity := { Address := "deadbeef" }

/-- Test variable `expectedSession`. -/
def expectedSession : Session String TestWorld :=
  { ID := expectedID, Config := some "config_string", ConsumerID := deadbeef,
    DestroyCallback := none }

/-- Manager of the tests: `NewManager(currentProposal, generateSessionID, ..., &fakePromiseProcessor{})`. -/
def testManager : Manager Unit TestWorld :=
  NewManager currentProposal generateSessionID fakeProcessor

/-- Manager whose generator hands out two distinct IDs. -/
def twoSessionManager : Manager Unit TestWorld :=
  NewManager currentProposal generateDistinctID fakeProcessor

/-- Manager whose promise processor cannot be stopped. -/
def stopFailingManager : Manager Unit TestWorld :=
  NewManager currentProposal generateSessionID stopFailingProcessor

/-- State after the `Create` of `TestManager_Create_StoresSession`: `expectedSession`
(no destroy callback) is stored. -/
def storedState : State Unit String TestWorld :=
  (testManager.Create deadbeef currentProposalID (some "config_string") none testState).2

/-- State after a `Create` that attaches `failingCallback`. -/
def callbackState : State Unit String TestWorld :=
  (testManager.Create deadbeef currentProposalID (some "config_string")
    (some failingCallback) testState).2

/-- Second consumer of the two-session scenario. -/
def cafe : Identity := { Address := "cafe" }

/-- Session A of the two-session scenario. -/
def sessionA : Session String TestWorld :=
  { ID := "session-A", ConsumerID := deadbeef, Config := some "config-A",
    DestroyCallback := none }

/-- Session B of the two-session scenario. -/
def sessionB : Session String TestWorld :=
  { ID := "session-B", ConsumerID := cafe, Config := some "config-B",
    DestroyCallback := none }

/-- State after `Create` of session A by `deadbeef`, then of session B by `cafe`, on
one manager. -/
def twoSessionState : State Unit String TestWorld :=
  (twoSessionManager.Create cafe currentProposalID (some "config-B") none
    (twoSessionManager.Create deadbeef currentProposalID (some "config-A") none
      testState).2).2

/-- Recognises a `Lock` of the manager's mutex, the first call of every `Create` and
`Destroy`. -/
def Event.isLock {D : Type} : Event D → Bool
  | Event.lock => true
  | _ => false

/-- Recognises the invocation of any destroy callback with `dryRun = false`. -/
def Event.isTeardown {D : Type} : Event D → Bool
  | Event.callback _ b => !b
  | _ => false

/-- Calls made by `ticks` iterations of `waitSessionEnd` that all end in `continue`:
a `Find` and a dry-run probe each. -/
def probeEvents {D : Type} (id : ID) : Nat → List (Event D)
  | 0 => []
  | ticks + 1 => [Event.find id, Event.callback id dryRun] ++ probeEvents id ticks

/-- Destroy callback of a session that is idle: probe and teardown both return nil. -/
def idleCallback : DestroyCallback TestWorld :=
  fun _ w => (none, w)

/-- Destroy callback whose probe fails with an error that is not the still-alive
sentinel, and whose teardown returns nil. -/
def brokenProbeCallback : DestroyCallback TestWorld :=
  fun dry w => (if dry then some (Error.other "probe failed") else none, w)

/-- State after a `Create` that attaches `idleCallback`. -/
def idleState : State Unit String TestWorld :=
  (testManager.Create deadbeef currentProposalID (some "config_string")
    (some idleCallback) testState).2

/-- State after a `Create` that attaches `brokenProbeCallback`. -/
def brokenProbeState : State Unit String TestWorld :=
  (testManager.Create deadbeef currentProposalID (some "config_string")
    (some brokenProbeCallback) testState).2

end session

/-! WireGuard service (package `service`, file `services/wireguard/service/service.go`):
the destroy callback built by `ProvideConfig` and the liveness check `isSessionAlive`.
Instants and durations are integers counting nanoseconds, as in Go's `time` package. -/

namespace wireguard

/-- One call made by the destroy callback, as recorded in `World.calls`. -/
inductive Call where
  | peerStats
  | stop
  | logError
deriving DecidableEq, Repr

/-- Modelled from the spec: the declaration of `wg.ConnectionEndpoint` is not among
the sources. Of its methods the destroy callback calls `PeerStats` and `Stop`; both act
on the endpoint state `E`. `PeerStats` yields the last handshake, a machine
integer of seconds since the Unix epoch whose Go type is declared elsewhere (the
source compares it with `> 0` and converts it with `int64`), and an error; the
statistics it also returns are discarded by the caller and left out. -/
structure ConnectionEndpoint (E : Type) where
  PeerStats : E → (Int × Option session.Error) × E
  Stop : E → Option session.Error × E

/-- World of the destroy callback: the endpoint, the wall clock read by `time.Since`
(nanoseconds since the Unix epoch) and the calls made so far. -/
structure World (E : Type) where
  endpoint : E
  now : Int
  calls : List Call

/-- Go `time.Second`, a duration in nanoseconds. -/
def Second : Int := 1000000000

/-- Go `time.Hour`. -/
def Hour : Int := 3600 * Second

/-- Largest value of Go's `time.Duration` (an `int64`). -/
def maxDuration : Int := 2 ^ 63 - 1

/-- Smallest value of Go's `time.Duration`. -/
def minDuration : Int := -(2 ^ 63)

/-- Conversion to Go's `int64`: the value modulo `2 ^ 64`, taken between `-2 ^ 63` and
`2 ^ 63 - 1`. It is the identity on that range. -/
def wrapInt64 (x : Int) : Int := (x + 2 ^ 63) % 2 ^ 64 - 2 ^ 63

/-- Go constant `unixToInternal` of package `time`: the seconds from 1 January of
year 1 to the Unix epoch. -/
def unixToInternal : Int := 62135596800

/-- Go `time.Unix(sec, nsec)` for an `int64` `sec` and `0 ≤ nsec < 10 ^ 9` (the source
passes `nsec = 0`), as nanoseconds since the Unix epoch. Go stores
`sec + unixToInternal` in an `int64` field, so the sum wraps around when `sec` is
`2 ^ 63 - unixToInternal = 9223371974719179008` or more, and the instant then lies
about 292 billion years in the past. -/
def Unix (sec nsec : Int) : Int :=
  (wrapInt64 (sec + unixToInternal) - unixToInternal) * Second + nsec

/-- Go `time.Since(t)` on a clock that reads `now`: the elapsed duration, which Go
replaces by the largest or smallest `Duration` when it does not fit. -/
def Since (now t : Int) : Int :=
  if now - t > maxDuration then maxDuration
  else if now - t < minDuration then minDuration
  else now - t

/-- Function `isSessionAlive` of `service.go`. -/
def isSessionAlive {E : Type} (ce : ConnectionEndpoint E) (w : World E) : Bool × World E :=
  let r := ce.PeerStats w.endpoint
  let w1 : World E := { w with endpoint := r.2, calls := w.calls ++ [Call.peerStats] }
  match r.1.2 with
  | some _ => (false, { w1 with calls := w1.calls ++ [Call.logError] })
  | none =>
    if r.1.1 > 0 ∧ Since w1.now (Unix (wrapInt64 r.1.1) 0) > 2 * Hour then (false, w1)
    else (true, w1)

/-- The closure `destroyCallback` that `ProvideConfig` of `service.go` builds over its
`connectionEndpoint` and returns. -/
def destroyCallback {E : Type} (connectionEndpoint : ConnectionEndpoint E) :
    session.DestroyCallback (World E) :=
  fun dryRun w =>
    if !dryRun then
      let r := connectionEndpoint.Stop w.endpoint
      (r.1, { w with endpoint := r.2, calls := w.calls ++ [Call.stop] })
    else
      let a := isSessionAlive connectionEndpoint w
      if a.1 then (some session.Error.ErrSessionStileAlive, a.2)
      else (none, a.2)

/-- Number of calls of a log that satisfy `p`. -/
def countCalls (p : Call → Bool) (calls : List Call) : Nat :=
  (calls.filter p).length

/-- Recognises a `Stop` of the connection endpoint. -/
def Call.isStop : Call → Bool
  | Call.stop => true
  | _ => false

/-- Recognises a `PeerStats` probe of the connection endpoint. -/
def Call.isPeerStats : Call → Bool
  | Call.peerStats => true
  | _ => false

/-- Endpoint of the examples: its state is the last handshake it reports; `Stop`
fails with a fixed error. -/
def reportingEndpoint : ConnectionEndpoint Int where
  PeerStats := fun e => ((e, none), e)
  Stop := fun e => (some (session.Error.other "stop failed"), e)

/-- Endpoint whose `PeerStats` fails. -/
def unreachableEndpoint : ConnectionEndpoint Int where
  PeerStats := fun e => ((0, some (session.Error.other "no device")), e)
  Stop := fun e => (none, e)

/-- Clock of the examples: 1541000000 seconds after the Unix epoch (31 October 2018). -/
def exampleNow : Int := 1541000000 * Second

/-- World of the examples whose endpoint reports the last handshake `lastHandshake`. -/
def exampleWorld (lastHandshake : Int) : World Int :=
  { endpoint := lastHandshake, now := exampleNow, calls := [] }

end wireguard

namespace session

/-! ## Create -/

section Create

variable {D Cfg W : Type}

/-- C1. `Create`, success case: when `proposalID` is the ID of the pinned proposal, the
generator returns `(id, nil)` and `Start` returns `nil`, `Create` returns a nil error and
the session made of `id`, `consumerID`, `config` and `destroyCallback`, and `Find id` on
the storage right after the call returns exactly that session. -/
theorem Create_success (manager : Manager D W) (consumerID : Identity) (proposalID : Int)
    (config : ServiceConfiguration Cfg) (destroyCallback : Option (DestroyCallback W))
    (st : State D Cfg W) (id : ID) (w1 w2 : W)
    (hProposal : proposalID = manager.currentProposal.ID)
    (hGenerate : manager.generateID st.world = ((id, none), w1))
    (hStart : manager.promiseProcessor.Start manager.currentProposal w1 = (none, w2)) :
    (manager.Create consumerID proposalID config destroyCallback st).1 =
      ({ ID := id, ConsumerID := consumerID, Config := config,
         DestroyCallback := destroyCallback }, none) ∧
    (manager.Create consumerID proposalID config destroyCallback st).2.sessionStorage.Find id =
      some { ID := id, ConsumerID := consumerID, Config := config,
             DestroyCallback := destroyCallback } := by
  subst hProposal
  simp [Manager.Create, Manager.createSession, State.emit, Session.zero, StorageMemory.Add,
    StorageMemory.Find, hGenerate, hStart]

/-- The scenario of `TestManager_Create_StoresSession`, through `Create_success`. -/
theorem Create_success_witness :
    (testManager.Create deadbeef currentProposalID (some "config_string") none testState).1 =
      (expectedSession, none) ∧
    (testManager.Create deadbeef currentProposalID (some "config_string") none
      testState).2.sessionStorage.Find expectedID = some expectedSession :=
  Create_success testManager deadbeef currentProposalID (some "config_string") none testState
    expectedID { testWorld with generated := 1 }
    { processor := { started := true, proposal := currentProposal }, generated := 1 }
    rfl rfl rfl

/-- C2. `Create`, proposal pinning: when `proposalID` differs from the ID of the pinned
proposal, `Create` returns `ErrorInvalidProposal` with the zero-value session, the
storage and the world are unchanged, and the only calls made are `Lock` and `Unlock`:
neither the ID generator nor `Start` is called. -/
theorem Create_rejects_other_proposal (manager : Manager D W) (consumerID : Identity)
    (proposalID : Int) (config : ServiceConfiguration Cfg)
    (destroyCallback : Option (DestroyCallback W)) (st : State D Cfg W)
    (hProposal : proposalID ≠ manager.currentProposal.ID) :
    (manager.Create consumerID proposalID config destroyCallback st).1 =
      (Session.zero, some Error.ErrorInvalidProposal) ∧
    (manager.Create consumerID proposalID config destroyCallback st).2.sessionStorage =
      st.sessionStorage ∧
    (manager.Create consumerID proposalID config destroyCallback st).2.world = st.world ∧
    (manager.Create consumerID proposalID config destroyCallback st).2.trace =
      st.trace ++ [Event.lock, Event.unlock] ∧
    countEvents Event.isGenerateID
        (manager.Create consumerID proposalID config destroyCallback st).2.trace =
      countEvents Event.isGenerateID st.trace ∧
    countEvents Event.isStart
        (manager.Create consumerID proposalID config destroyCallback st).2.trace =
      countEvents Event.isStart st.trace := by
  have h : manager.currentProposal.ID ≠ proposalID := fun e => hProposal e.symm
  simp [Manager.Create, State.emit, h, countEvents, Event.isGenerateID, Event.isStart]

/-- The scenario of `TestManager_Create_RejectsUnknownProposal` (proposal 69 against the
pinned 68), through `Create_rejects_other_proposal`. -/
theorem Create_rejects_other_proposal_witness :
    (testManager.Create deadbeef 69 (some "config_string") none testState).1 =
      (Session.zero, some Error.ErrorInvalidProposal) ∧
    (testManager.Create deadbeef 69 (some "config_string") none testState).2.sessionStorage =
      NewStorageMemory ∧
    (testManager.Create deadbeef 69 (some "config_string") none testState).2.world =
      testWorld ∧
    (testManager.Create deadbeef 69 (some "config_string") none testState).2.trace =
      [Event.lock, Event.unlock] :=
  have h := Create_rejects_other_proposal testManager deadbeef 69 (some "config_string") none
    testState (by decide)
  ⟨h.1, h.2.1, h.2.2.1, h.2.2.2.1⟩

/-- C3. Every `Create` call that returns a nil error has made exactly these calls, in
this order: `Lock`, the ID generator, `Start` with the manager's whole `currentProposal`,
`Add` of the new session, the spawn of its monitor, `Unlock`. So `Start` is called
exactly once in the call, with `currentProposal`, and before the session is stored; it
ran on the world the generator left and returned nil. -/
theorem Create_starts_processor (manager : Manager D W) (consumerID : Identity)
    (proposalID : Int) (config : ServiceConfiguration Cfg)
    (destroyCallback : Option (DestroyCallback W)) (st : State D Cfg W)
    (hOk : (manager.Create consumerID proposalID config destroyCallback st).1.2 = none) :
    ∃ id : ID,
      (manager.Create consumerID proposalID config destroyCallback st).1.1.ID = id ∧
      (manager.generateID st.world).1 = (id, none) ∧
      manager.promiseProcessor.Start manager.currentProposal (manager.generateID st.world).2 =
        (none, (manager.Create consumerID proposalID config destroyCallback st).2.world) ∧
      (manager.Create consumerID proposalID config destroyCallback st).2.trace =
        st.trace ++ [Event.lock, Event.generateID, Event.start manager.currentProposal,
          Event.add id, Event.spawnWaitSessionEnd id, Event.unlock] ∧
      countEvents Event.isStart
          (manager.Create consumerID proposalID config destroyCallback st).2.trace =
        countEvents Event.isStart st.trace + 1 := by
  rcases hg : manager.generateID st.world with ⟨⟨id, ge⟩, w1⟩
  rcases hs : manager.promiseProcessor.Start manager.currentProposal w1 with ⟨se, w2⟩
  by_cases hp : manager.currentProposal.ID = proposalID
  · cases ge with
    | some e =>
      simp [Manager.Create, Manager.createSession, State.emit, hp, hg] at hOk
    | none =>
      cases se with
      | some e =>
        simp [Manager.Create, Manager.createSession, State.emit, hp, hg, hs] at hOk
      | none =>
        refine ⟨id, ?_⟩
        simp [Manager.Create, Manager.createSession, State.emit, hp, hg, hs, countEvents,
          Event.isStart, List.filter_append]
  · simp [Manager.Create, hp] at hOk

/-- The scenario of `TestManager_Create_StartsPromiseProcessor`, through
`Create_starts_processor`: the fake processor is started with `currentProposal`. -/
theorem Create_starts_processor_witness :
    (testManager.Create deadbeef currentProposalID (some "config_string") none
        testState).1.2 = none ∧
    ∃ id : ID,
      (testManager.Create deadbeef currentProposalID (some "config_string") none
        testState).1.1.ID = id ∧
      (testManager.generateID testState.world).1 = (id, none) ∧
      testManager.promiseProcessor.Start testManager.currentProposal
          (testManager.generateID testState.world).2 =
        (none, (testManager.Create deadbeef currentProposalID (some "config_string") none
          testState).2.world) ∧
      (testManager.Create deadbeef currentProposalID (some "config_string") none
          testState).2.trace =
        testState.trace ++ [Event.lock, Event.generateID,
          Event.start testManager.currentProposal, Event.add id,
          Event.spawnWaitSessionEnd id, Event.unlock] ∧
      countEvents Event.isStart
          (testManager.Create deadbeef currentProposalID (some "config_string") none
            testState).2.trace =
        countEvents Event.isStart testState.trace + 1 :=
  ⟨rfl, Create_starts_processor testManager deadbeef currentProposalID (some "config_string")
    none testState rfl⟩

/-- C4. `Create` is atomic on collaborator failure. With a matching `proposalID`:
if the ID generator returns an error `e`, `Create` returns exactly `e`, makes no call
besides `Lock`, the generator and `Unlock` (so `Start` is not called) and leaves the
storage unchanged; if the generator succeeds and `Start` returns an error `e`, `Create`
returns exactly `e` and leaves the storage unchanged. And whenever `Create` returns a
non-nil error, for any `proposalID`, the storage after the call is the storage before. -/
theorem Create_atomic_on_failure (manager : Manager D W) (consumerID : Identity)
    (proposalID : Int) (config : ServiceConfiguration Cfg)
    (destroyCallback : Option (DestroyCallback W)) (st : State D Cfg W) :
    (proposalID = manager.currentProposal.ID →
      ∀ (id : ID) (e : Error) (w1 : W),
        manager.generateID st.world = ((id, some e), w1) →
        (manager.Create consumerID proposalID config destroyCallback st).1.2 = some e ∧
        (manager.Create consumerID proposalID config destroyCallback st).2.trace =
          st.trace ++ [Event.lock, Event.generateID, Event.unlock] ∧
        (manager.Create consumerID proposalID config destroyCallback st).2.world = w1 ∧
        (manager.Create consumerID proposalID config destroyCallback st).2.sessionStorage =
          st.sessionStorage) ∧
    (proposalID = manager.currentProposal.ID →
      ∀ (id : ID) (e : Error) (w1 w2 : W),
        manager.generateID st.world = ((id, none), w1) →
        manager.promiseProcessor.Start manager.currentProposal w1 = (some e, w2) →
        (manager.Create consumerID proposalID config destroyCallback st).1.2 = some e ∧
        (manager.Create consumerID proposalID config destroyCallback st).2.trace =
          st.trace ++ [Event.lock, Event.generateID, Event.start manager.currentProposal,
            Event.unlock] ∧
        (manager.Create consumerID proposalID config destroyCallback st).2.sessionStorage =
          st.sessionStorage) ∧
    ((manager.Create consumerID proposalID config destroyCallback st).1.2 ≠ none →
      (manager.Create consumerID proposalID config destroyCallback st).2.sessionStorage =
        st.sessionStorage) := by
  refine ⟨?_, ?_, ?_⟩
  · intro hp id e w1 hg
    subst hp
    simp [Manager.Create, Manager.createSession, State.emit, hg]
  · intro hp id e w1 w2 hg hs
    subst hp
    simp [Manager.Create, Manager.createSession, State.emit, hg, hs]
  · intro hErr
    rcases hg : manager.generateID st.world with ⟨⟨id, ge⟩, w1⟩
    rcases hs : manager.promiseProcessor.Start manager.currentProposal w1 with ⟨se, w2⟩
    by_cases hp : manager.currentProposal.ID = proposalID
    · cases ge with
      | some e => simp [Manager.Create, Manager.createSession, State.emit, hp, hg]
      | none =>
        cases se with
        | some e => simp [Manager.Create, Manager.createSession, State.emit, hp, hg, hs]
        | none =>
          simp [Manager.Create, Manager.createSession, State.emit, hp, hg, hs] at hErr
    · simp [Manager.Create, State.emit, hp]

/-- Both failures on the test fixtures, through `Create_atomic_on_failure`: a failing
generator, then a failing `Start`; each time the error comes back and the storage is
still the empty one. -/
theorem Create_atomic_on_failure_witness :
    ((NewManager currentProposal failingGenerator fakeProcessor).Create deadbeef
        currentProposalID (some "config_string") none testState).1.2 =
      some (Error.other "generator failed") ∧
    ((NewManager currentProposal failingGenerator fakeProcessor).Create deadbeef
        currentProposalID (some "config_string") none testState).2.sessionStorage =
      NewStorageMemory ∧
    ((NewManager currentProposal generateSessionID failingProcessor).Create deadbeef
        currentProposalID (some "config_string") none testState).1.2 =
      some (Error.other "start failed") ∧
    ((NewManager currentProposal generateSessionID failingProcessor).Create deadbeef
        currentProposalID (some "config_string") none testState).2.sessionStorage =
      NewStorageMemory ∧
    ((NewManager currentProposal generateSessionID failingProcessor).Create deadbeef
        currentProposalID (some "config_string") none testState).2.sessionStorage =
      testState.sessionStorage :=
  have hGen := (Create_atomic_on_failure (NewManager currentProposal failingGenerator
    fakeProcessor) deadbeef currentProposalID (some "config_string") none testState).1 rfl
    "" (Error.other "generator failed") testWorld rfl
  have hStart := (Create_atomic_on_failure (NewManager currentProposal generateSessionID
    failingProcessor) deadbeef currentProposalID (some "config_string") none testState).2.1
    rfl expectedID (Error.other "start failed") { testWorld with generated := 1 }
    { testWorld with generated := 1 } rfl rfl
  have hAny := (Create_atomic_on_failure (NewManager currentProposal generateSessionID
    failingProcessor) deadbeef currentProposalID (some "config_string") none testState).2.2
    (by decide)
  ⟨hGen.1, hGen.2.2.2, hStart.1, hStart.2.2, hAny⟩

end Create

/-! ## Destroy -/

section Destroy

variable {D Cfg W : Type}

/-- C5. `Destroy` by the owner removes the session: for a stored session `s`, when
`Stop` returns nil, after `Destroy(s.ConsumerID, s.ID)` the lookup of `s.ID` finds
nothing, every other ID is found exactly as before, and `Stop` was called exactly once
in the call. -/
theorem Destroy_by_owner_removes (manager : Manager D W) (st : State D Cfg W)
    (s : Session Cfg W) (w1 : W)
    (hStored : st.sessionStorage.Find s.ID = some s)
    (hStop : manager.promiseProcessor.Stop st.world = (none, w1)) :
    (manager.Destroy s.ConsumerID s.ID st).2.sessionStorage.Find s.ID = none ∧
    (∀ id : ID, id ≠ s.ID →
      (manager.Destroy s.ConsumerID s.ID st).2.sessionStorage.Find id =
        st.sessionStorage.Find id) ∧
    countEvents Event.isStop (manager.Destroy s.ConsumerID s.ID st).2.trace =
      countEvents Event.isStop st.trace + 1 := by
  have hMap : st.sessionStorage.sessionMap s.ID = some s := hStored
  cases hcb : s.DestroyCallback with
  | none =>
    refine ⟨?_, ?_, ?_⟩
    · simp [Manager.Destroy, State.emit, hStored, hStop, hcb, StorageMemory.Find,
        StorageMemory.Remove, hMap]
    · intro id hid
      simp [Manager.Destroy, State.emit, hStored, hStop, hcb, StorageMemory.Find,
        StorageMemory.Remove, hMap, hid]
    · simp [Manager.Destroy, State.emit, hStored, hStop, hcb, StorageMemory.Find,
        hMap, countEvents, Event.isStop, List.filter_append]
  | some cb =>
    refine ⟨?_, ?_, ?_⟩
    · simp [Manager.Destroy, State.emit, hStored, hStop, hcb, StorageMemory.Find,
        StorageMemory.Remove, hMap]
    · intro id hid
      simp [Manager.Destroy, State.emit, hStored, hStop, hcb, StorageMemory.Find,
        StorageMemory.Remove, hMap, hid]
    · simp [Manager.Destroy, State.emit, hStored, hStop, hcb, StorageMemory.Find,
        hMap, countEvents, Event.isStop, List.filter_append]

/-- In the two-session scenario, `Destroy` of session A by its owner, through
`Destroy_by_owner_removes`: A is gone, session B is still found. -/
theorem Destroy_by_owner_removes_witness :
    (twoSessionManager.Destroy deadbeef "session-A" twoSessionState).2.sessionStorage.Find
        "session-A" = none ∧
    (twoSessionManager.Destroy deadbeef "session-A" twoSessionState).2.sessionStorage.Find
        "session-B" = some sessionB ∧
    countEvents Event.isStop
        (twoSessionManager.Destroy deadbeef "session-A" twoSessionState).2.trace = 1 :=
  have h := Destroy_by_owner_removes twoSessionManager twoSessionState sessionA
    { processor := { started := false, proposal := currentProposal }, generated := 2 }
    rfl rfl
  ⟨h.1, (h.2.1 "session-B" (by decide)).trans rfl, h.2.2.trans rfl⟩

/-- C6. `Destroy`, ownership check: for a stored session `s` and a `consumerID` other
than `s.ConsumerID`, `Destroy(consumerID, s.ID)` returns `ErrorWrongSessionOwner`; the
storage and the world are unchanged, `s` is still found, and the only calls made are
`Lock`, `Find` and `Unlock`: neither `Stop` nor the destroy callback is called. -/
theorem Destroy_wrong_owner (manager : Manager D W) (st : State D Cfg W)
    (s : Session Cfg W) (consumerID : Identity)
    (hStored : st.sessionStorage.Find s.ID = some s)
    (hOther : consumerID ≠ s.ConsumerID) :
    (manager.Destroy consumerID s.ID st).1 = some Error.ErrorWrongSessionOwner ∧
    (manager.Destroy consumerID s.ID st).2.sessionStorage = st.sessionStorage ∧
    (manager.Destroy consumerID s.ID st).2.sessionStorage.Find s.ID = some s ∧
    (manager.Destroy consumerID s.ID st).2.world = st.world ∧
    (manager.Destroy consumerID s.ID st).2.trace =
      st.trace ++ [Event.lock, Event.find s.ID, Event.unlock] ∧
    countEvents Event.isStop (manager.Destroy consumerID s.ID st).2.trace =
      countEvents Event.isStop st.trace ∧
    countEvents Event.isCallback (manager.Destroy consumerID s.ID st).2.trace =
      countEvents Event.isCallback st.trace := by
  have hne : s.ConsumerID ≠ consumerID := fun e => hOther e.symm
  simp [Manager.Destroy, State.emit, hStored, hne, countEvents, Event.isStop,
    Event.isCallback, List.filter_append]

/-- Consumer `cafe` tries to destroy the session of `deadbeef` that carries
`failingCallback`, through `Destroy_wrong_owner`. -/
theorem Destroy_wrong_owner_witness :
    (testManager.Destroy cafe expectedID callbackState).1 =
      some Error.ErrorWrongSessionOwner ∧
    (testManager.Destroy cafe expectedID callbackState).2.sessionStorage =
      callbackState.sessionStorage ∧
    (testManager.Destroy cafe expectedID callbackState).2.world = callbackState.world ∧
    countEvents Event.isStop (testManager.Destroy cafe expectedID callbackState).2.trace =
      0 ∧
    countEvents Event.isCallback
      (testManager.Destroy cafe expectedID callbackState).2.trace = 0 :=
  have h := Destroy_wrong_owner testManager callbackState
    { expectedSession with DestroyCallback := some failingCallback } cafe rfl (by decide)
  ⟨h.1, h.2.1, h.2.2.2.1, h.2.2.2.2.2.1.trans rfl, h.2.2.2.2.2.2.trans rfl⟩

/-- C7, as stated, fails on a session without destroy callback. The session stored by
`TestManager_Create_StoresSession` (callback `nil`) is destroyed twice by its owner with
`Stop` succeeding: the first call returns nil and removes it, the second returns
`ErrorSessionNotExists`, and no callback was invoked over the two calls, not one. -/
theorem Destroy_twice_no_callback_counterexample :
    storedState.sessionStorage.Find expectedSession.ID = some expectedSession ∧
    (testManager.Destroy expectedSession.ConsumerID expectedSession.ID storedState).1 = none ∧
    (testManager.Destroy expectedSession.ConsumerID expectedSession.ID
      (testManager.Destroy expectedSession.ConsumerID expectedSession.ID storedState).2).1 =
      some Error.ErrorSessionNotExists ∧
    countEvents (Event.isTeardownOf expectedSession.ID)
      (testManager.Destroy expectedSession.ConsumerID expectedSession.ID
        (testManager.Destroy expectedSession.ConsumerID expectedSession.ID
          storedState).2).2.trace = 0 ∧
    ¬ countEvents (Event.isTeardownOf expectedSession.ID)
      (testManager.Destroy expectedSession.ConsumerID expectedSession.ID
        (testManager.Destroy expectedSession.ConsumerID expectedSession.ID
          storedState).2).2.trace =
      countEvents (Event.isTeardownOf expectedSession.ID) storedState.trace + 1 := by
  refine ⟨rfl, rfl, rfl, ?_, ?_⟩ <;> decide

/-- C7, amended. For a session ID that is not in storage, `Destroy` returns
`ErrorSessionNotExists`, calls only `Lock`, `Find` and `Unlock` (no `Stop`, no
callback) and changes neither storage nor world. Consequently, for a stored session `s`
and two consecutive calls `Destroy(s.ConsumerID, s.ID)` with `Stop` succeeding, the
first removes `s`, the second returns `ErrorSessionNotExists` and leaves the storage as
the first left it, and over the two calls the callback of `s` is invoked with
`dryRun = false` exactly once when `s.DestroyCallback` is non-nil and not at all when
it is nil. -/
theorem Destroy_at_most_once (manager : Manager D W) (st : State D Cfg W) :
    (∀ (consumerID : Identity) (sessionID : String),
      st.sessionStorage.Find sessionID = none →
      manager.Destroy consumerID sessionID st =
        (some Error.ErrorSessionNotExists,
         { sessionStorage := st.sessionStorage, world := st.world,
           trace := st.trace ++ [Event.lock, Event.find sessionID, Event.unlock] })) ∧
    (∀ (s : Session Cfg W) (w1 : W),
      st.sessionStorage.Find s.ID = some s →
      manager.promiseProcessor.Stop st.world = (none, w1) →
      (manager.Destroy s.ConsumerID s.ID st).2.sessionStorage.Find s.ID = none ∧
      (manager.Destroy s.ConsumerID s.ID (manager.Destroy s.ConsumerID s.ID st).2).1 =
        some Error.ErrorSessionNotExists ∧
      (manager.Destroy s.ConsumerID s.ID
          (manager.Destroy s.ConsumerID s.ID st).2).2.sessionStorage =
        (manager.Destroy s.ConsumerID s.ID st).2.sessionStorage ∧
      countEvents (Event.isTeardownOf s.ID)
          (manager.Destroy s.ConsumerID s.ID
            (manager.Destroy s.ConsumerID s.ID st).2).2.trace =
        countEvents (Event.isTeardownOf s.ID) st.trace +
          (if s.DestroyCallback.isSome then 1 else 0)) := by
  have hMiss : ∀ (st0 : State D Cfg W) (c : Identity) (i : String),
      st0.sessionStorage.Find i = none →
      manager.Destroy c i st0 =
        (some Error.ErrorSessionNotExists,
         { sessionStorage := st0.sessionStorage, world := st0.world,
           trace := st0.trace ++ [Event.lock, Event.find i, Event.unlock] }) := by
    intro st0 c i h
    simp [Manager.Destroy, State.emit, h]
  refine ⟨hMiss st, ?_⟩
  intro s w1 hStored hStop
  have hMap : st.sessionStorage.sessionMap s.ID = some s := hStored
  have hGone : (manager.Destroy s.ConsumerID s.ID st).2.sessionStorage.Find s.ID = none := by
    cases hcb : s.DestroyCallback <;>
      simp [Manager.Destroy, State.emit, hStored, hStop, hcb, StorageMemory.Find,
        StorageMemory.Remove, hMap]
  have hSecond := hMiss (manager.Destroy s.ConsumerID s.ID st).2 s.ConsumerID s.ID hGone
  refine ⟨hGone, ?_, ?_, ?_⟩
  · rw [hSecond]
  · rw [hSecond]
  · rw [hSecond]
    cases hcb : s.DestroyCallback <;>
      simp [Manager.Destroy, State.emit, hStored, hStop, hcb, StorageMemory.Find, hMap,
        countEvents, Event.isTeardownOf, List.filter_append, dryRun]

/-- Both halves of `Destroy_at_most_once` on the fixtures: an unknown ID on the empty
storage, and the session carrying `failingCallback` destroyed twice, its teardown run
once. -/
theorem Destroy_at_most_once_witness :
    (testManager.Destroy deadbeef "unknown" testState).1 =
      some Error.ErrorSessionNotExists ∧
    (testManager.Destroy deadbeef "unknown" testState).2.trace =
      [Event.lock, Event.find "unknown", Event.unlock] ∧
    (testManager.Destroy deadbeef expectedID callbackState).2.sessionStorage.Find
      expectedID = none ∧
    (testManager.Destroy deadbeef expectedID
      (testManager.Destroy deadbeef expectedID callbackState).2).1 =
      some Error.ErrorSessionNotExists ∧
    countEvents (Event.isTeardownOf expectedID)
      (testManager.Destroy deadbeef expectedID
        (testManager.Destroy deadbeef expectedID callbackState).2).2.trace = 1 :=
  have hMiss := (Destroy_at_most_once testManager testState).1 deadbeef "unknown" rfl
  have hTwice := (Destroy_at_most_once testManager callbackState).2
    { expectedSession with DestroyCallback := some failingCallback }
    { processor := { started := false, proposal := currentProposal }, generated := 1 }
    rfl rfl
  ⟨congrArg Prod.fst hMiss, (congrArg (fun r => r.2.trace) hMiss).trans rfl, hTwice.1,
    hTwice.2.1, hTwice.2.2.2.trans rfl⟩

/-- C8. `Destroy` surfaces teardown errors. For a stored session `s` destroyed by its
owner with `Stop` returning nil: the session is removed in both cases; if
`s.DestroyCallback` is a callback `cb`, the calls are `Lock`, `Find`, `Stop`, `Remove`,
then `cb` with `dryRun = false` (once, after the removal, on the world `Stop` left),
then `Unlock`, and `Destroy` returns exactly what `cb` returned, nil or any error; if
`s.DestroyCallback` is nil, no callback is invoked and `Destroy` returns nil. -/
theorem Destroy_surfaces_teardown_error (manager : Manager D W) (st : State D Cfg W)
    (s : Session Cfg W) (w1 : W)
    (hStored : st.sessionStorage.Find s.ID = some s)
    (hStop : manager.promiseProcessor.Stop st.world = (none, w1)) :
    (manager.Destroy s.ConsumerID s.ID st).2.sessionStorage = st.sessionStorage.Remove s.ID ∧
    (manager.Destroy s.ConsumerID s.ID st).2.sessionStorage.Find s.ID = none ∧
    (∀ cb : DestroyCallback W, s.DestroyCallback = some cb →
      (manager.Destroy s.ConsumerID s.ID st).1 = (cb false w1).1 ∧
      (manager.Destroy s.ConsumerID s.ID st).2.world = (cb false w1).2 ∧
      (manager.Destroy s.ConsumerID s.ID st).2.trace =
        st.trace ++ [Event.lock, Event.find s.ID, Event.stop, Event.remove s.ID,
          Event.callback s.ID false, Event.unlock] ∧
      countEvents Event.isCallback (manager.Destroy s.ConsumerID s.ID st).2.trace =
        countEvents Event.isCallback st.trace + 1) ∧
    (s.DestroyCallback = none →
      (manager.Destroy s.ConsumerID s.ID st).1 = none ∧
      (manager.Destroy s.ConsumerID s.ID st).2.world = w1 ∧
      (manager.Destroy s.ConsumerID s.ID st).2.trace =
        st.trace ++ [Event.lock, Event.find s.ID, Event.stop, Event.remove s.ID,
          Event.unlock]) := by
  have hMap : st.sessionStorage.sessionMap s.ID = some s := hStored
  refine ⟨?_, ?_, ?_, ?_⟩
  · cases hcb : s.DestroyCallback <;>
      simp [Manager.Destroy, State.emit, hStored, hStop, hcb]
  · cases hcb : s.DestroyCallback <;>
      simp [Manager.Destroy, State.emit, hStored, hStop, hcb, StorageMemory.Find,
        StorageMemory.Remove, hMap]
  · intro cb hcb
    simp [Manager.Destroy, State.emit, hStored, hStop, hcb, dryRun, countEvents,
      Event.isCallback, List.filter_append]
  · intro hcb
    simp [Manager.Destroy, State.emit, hStored, hStop, hcb]

/-- The session carrying `failingCallback` destroyed by its owner, through
`Destroy_surfaces_teardown_error`: the teardown error comes back and the session is
removed all the same. -/
theorem Destroy_surfaces_teardown_error_witness :
    (testManager.Destroy deadbeef expectedID callbackState).1 =
      some (Error.other "teardown failed") ∧
    (testManager.Destroy deadbeef expectedID callbackState).2.sessionStorage.Find
      expectedID = none ∧
    (testManager.Destroy deadbeef expectedID callbackState).2.trace =
      callbackState.trace ++ [Event.lock, Event.find expectedID, Event.stop,
        Event.remove expectedID, Event.callback expectedID false, Event.unlock] ∧
    (testManager.Destroy deadbeef expectedID storedState).1 = none :=
  have h := Destroy_surfaces_teardown_error testManager callbackState
    { expectedSession with DestroyCallback := some failingCallback }
    { processor := { started := false, proposal := currentProposal }, generated := 1 }
    rfl rfl
  have hNil := Destroy_surfaces_teardown_error testManager storedState expectedSession
    { processor := { started := false, proposal := currentProposal }, generated := 1 }
    rfl rfl
  ⟨(h.2.2.1 failingCallback rfl).1.trans rfl, h.2.1, (h.2.2.1 failingCallback rfl).2.2.1,
    (hNil.2.2.2 rfl).1⟩

/-- C9, as stated, fails: on a manager whose processor cannot be stopped, `Destroy` of
the stored session by its owner returns the stop error and the session is still in
storage afterwards. -/
theorem Destroy_stop_failure_counterexample :
    storedState.sessionStorage.Find expectedID = some expectedSession ∧
    stopFailingManager.promiseProcessor.Stop storedState.world =
      (some (Error.other "stop failed"), storedState.world) ∧
    (stopFailingManager.Destroy deadbeef expectedID storedState).1 =
      some (Error.other "stop failed") ∧
    (stopFailingManager.Destroy deadbeef expectedID storedState).2.sessionStorage.Find
      expectedID = some expectedSession ∧
    ¬ (stopFailingManager.Destroy deadbeef expectedID storedState).2.sessionStorage.Find
      expectedID = none := by
  refine ⟨rfl, rfl, rfl, rfl, ?_⟩
  intro h
  have h2 : (some expectedSession : Option (Session String TestWorld)) = none :=
    Eq.trans rfl h
  exact Option.noConfusion h2

/-- C9, amended. For a stored session `s` destroyed by its owner, if `Stop` returns an
error `e`, `Destroy` returns `e` and stops there: the calls are `Lock`, `Find`, `Stop`,
`Unlock`, the storage is unchanged, so `s` is still found, and the destroy callback is
not invoked. A failed stop blocks the removal. -/
theorem Destroy_stop_failure_keeps_session (manager : Manager D W) (st : State D Cfg W)
    (s : Session Cfg W) (e : Error) (w1 : W)
    (hStored : st.sessionStorage.Find s.ID = some s)
    (hStop : manager.promiseProcessor.Stop st.world = (some e, w1)) :
    (manager.Destroy s.ConsumerID s.ID st).1 = some e ∧
    (manager.Destroy s.ConsumerID s.ID st).2.sessionStorage = st.sessionStorage ∧
    (manager.Destroy s.ConsumerID s.ID st).2.sessionStorage.Find s.ID = some s ∧
    (manager.Destroy s.ConsumerID s.ID st).2.world = w1 ∧
    (manager.Destroy s.ConsumerID s.ID st).2.trace =
      st.trace ++ [Event.lock, Event.find s.ID, Event.stop, Event.unlock] ∧
    countEvents Event.isCallback (manager.Destroy s.ConsumerID s.ID st).2.trace =
      countEvents Event.isCallback st.trace := by
  simp [Manager.Destroy, State.emit, hStored, hStop, countEvents, Event.isCallback,
    List.filter_append]

/-- The session carrying `failingCallback` on the manager whose processor cannot be
stopped, through `Destroy_stop_failure_keeps_session`. -/
theorem Destroy_stop_failure_keeps_session_witness :
    (stopFailingManager.Destroy deadbeef expectedID callbackState).1 =
      some (Error.other "stop failed") ∧
    (stopFailingManager.Destroy deadbeef expectedID callbackState).2.sessionStorage =
      callbackState.sessionStorage ∧
    (stopFailingManager.Destroy deadbeef expectedID callbackState).2.trace =
      callbackState.trace ++ [Event.lock, Event.find expectedID, Event.stop,
        Event.unlock] :=
  have h := Destroy_stop_failure_keeps_session stopFailingManager callbackState
    { expectedSession with DestroyCallback := some failingCallback }
    (Error.other "stop failed") callbackState.world rfl rfl
  ⟨h.1, h.2.1, h.2.2.2.2.1⟩

/-- C10, as stated, fails: the manager has one promise processor for all its
sessions. Sessions A and B are created on one manager with the fake processor of the
tests; both are stored and the processor is started. `Destroy` of A by its owner
succeeds, B is still stored, and the processor that was started for B is stopped. -/
theorem Destroy_stops_shared_processor_counterexample :
    twoSessionState.sessionStorage.Find "session-A" = some sessionA ∧
    twoSessionState.sessionStorage.Find "session-B" = some sessionB ∧
    twoSessionState.world.processor.started = true ∧
    (twoSessionManager.Destroy deadbeef "session-A" twoSessionState).1 = none ∧
    (twoSessionManager.Destroy deadbeef "session-A" twoSessionState).2.sessionStorage.Find
      "session-B" = some sessionB ∧
    (twoSessionManager.Destroy deadbeef "session-A"
      twoSessionState).2.world.processor.started = false :=
  ⟨rfl, rfl, rfl, rfl, rfl, rfl⟩

/-- C10, amended. The manager has a single promise processor, shared by all sessions.
Every `Create` that returns nil calls `Start` once, on that processor. For two distinct
stored sessions `a` and `b`, `Destroy` of `a` by its owner with `Stop` returning nil
removes `a`, leaves `b` stored unchanged, and calls `Stop` once, on that same processor;
the world afterwards is the one `Stop` left, passed through the teardown callback of `a`
when there is one. So for any observation `started` of the world that is false after
`Stop` and that the callback of `a` does not change, `started` is false after the call
although `b` is still stored. -/
theorem Destroy_stops_the_one_processor (manager : Manager D W) (st : State D Cfg W)
    (a b : Session Cfg W) (w1 : W) (started : W → Bool)
    (hA : st.sessionStorage.Find a.ID = some a)
    (hB : st.sessionStorage.Find b.ID = some b)
    (hDistinct : a.ID ≠ b.ID)
    (hStop : manager.promiseProcessor.Stop st.world = (none, w1))
    (hStopped : started w1 = false)
    (hCallback : ∀ cb : DestroyCallback W, a.DestroyCallback = some cb →
      started (cb false w1).2 = started w1) :
    (∀ (consumerID : Identity) (proposalID : Int) (config : ServiceConfiguration Cfg)
        (destroyCallback : Option (DestroyCallback W)),
      (manager.Create consumerID proposalID config destroyCallback st).1.2 = none →
      manager.promiseProcessor.Start manager.currentProposal (manager.generateID st.world).2 =
        (none, (manager.Create consumerID proposalID config destroyCallback st).2.world) ∧
      countEvents Event.isStart
          (manager.Create consumerID proposalID config destroyCallback st).2.trace =
        countEvents Event.isStart st.trace + 1) ∧
    (manager.Destroy a.ConsumerID a.ID st).2.sessionStorage.Find a.ID = none ∧
    (manager.Destroy a.ConsumerID a.ID st).2.sessionStorage.Find b.ID = some b ∧
    countEvents Event.isStop (manager.Destroy a.ConsumerID a.ID st).2.trace =
      countEvents Event.isStop st.trace + 1 ∧
    (manager.Destroy a.ConsumerID a.ID st).2.world =
      (match a.DestroyCallback with
       | some cb => (cb false w1).2
       | none => w1) ∧
    started (manager.Destroy a.ConsumerID a.ID st).2.world = false := by
  have hMapA : st.sessionStorage.sessionMap a.ID = some a := hA
  have hMapB : st.sessionStorage.sessionMap b.ID = some b := hB
  have hne : b.ID ≠ a.ID := fun e => hDistinct e.symm
  refine ⟨?_, ?_, ?_, ?_, ?_, ?_⟩
  · intro consumerID proposalID config destroyCallback hOk
    rcases hg : manager.generateID st.world with ⟨⟨id, ge⟩, w0⟩
    rcases hs : manager.promiseProcessor.Start manager.currentProposal w0 with ⟨se, w2⟩
    by_cases hp : manager.currentProposal.ID = proposalID
    · cases ge with
      | some e =>
        simp [Manager.Create, Manager.createSession, State.emit, hp, hg] at hOk
      | none =>
        cases se with
        | some e =>
          simp [Manager.Create, Manager.createSession, State.emit, hp, hg, hs] at hOk
        | none =>
          simp [Manager.Create, Manager.createSession, State.emit, hp, hg, hs, countEvents,
            Event.isStart, List.filter_append]
    · simp [Manager.Create, hp] at hOk
  · cases hcb : a.DestroyCallback <;>
      simp [Manager.Destroy, State.emit, hA, hStop, hcb, StorageMemory.Find,
        StorageMemory.Remove, hMapA]
  · cases hcb : a.DestroyCallback <;>
      simp [Manager.Destroy, State.emit, hA, hStop, hcb, StorageMemory.Find,
        StorageMemory.Remove, hMapA, hMapB, hne]
  · cases hcb : a.DestroyCallback <;>
      simp [Manager.Destroy, State.emit, hA, hStop, hcb, countEvents, Event.isStop,
        List.filter_append]
  · cases hcb : a.DestroyCallback <;>
      simp [Manager.Destroy, State.emit, hA, hStop, hcb, dryRun]
  · cases hcb : a.DestroyCallback with
    | none => simp [Manager.Destroy, State.emit, hA, hStop, hcb, hStopped]
    | some cb =>
      have h := hCallback cb hcb
      simp [Manager.Destroy, State.emit, hA, hStop, hcb, dryRun, h, hStopped]

/-- The two-session scenario through `Destroy_stops_the_one_processor`, observing the
`started` flag of the fake processor: after `Destroy` of A, B is stored and the
processor is not started. -/
theorem Destroy_stops_the_one_processor_witness :
    (twoSessionManager.Destroy deadbeef "session-A" twoSessionState).2.sessionStorage.Find
      "session-A" = none ∧
    (twoSessionManager.Destroy deadbeef "session-A" twoSessionState).2.sessionStorage.Find
      "session-B" = some sessionB ∧
    countEvents Event.isStop
      (twoSessionManager.Destroy deadbeef "session-A" twoSessionState).2.trace = 1 ∧
    (twoSessionManager.Destroy deadbeef "session-A"
      twoSessionState).2.world.processor.started = false :=
  have h := Destroy_stops_the_one_processor twoSessionManager twoSessionState sessionA
    sessionB { processor := { started := false, proposal := currentProposal }, generated := 2 }
    (fun w => w.processor.started) rfl rfl (by decide) rfl rfl
    (fun _ hcb => Option.noConfusion hcb)
  ⟨h.2.1, h.2.2.1, h.2.2.2.1.trans rfl, h.2.2.2.2.2⟩

end Destroy

/-! ## Idle monitor -/

section Monitor

variable {D Cfg W : Type}

/-- A tick on a stored session whose probe answers with the still-alive sentinel: the
loop continues, having made a `Find` and the probe and nothing else. -/
theorem waitSessionEndTick_alive (manager : Manager D W) (st : State D Cfg W)
    (s : Session Cfg W) (cb : DestroyCallback W)
    (hStored : st.sessionStorage.Find s.ID = some s)
    (hCallback : s.DestroyCallback = some cb)
    (hAlive : (cb true st.world).1 = some Error.ErrSessionStileAlive) :
    manager.waitSessionEndTick s.ID st =
      (true, { sessionStorage := st.sessionStorage, world := (cb true st.world).2,
               trace := st.trace ++ [Event.find s.ID, Event.callback s.ID true] }) := by
  simp [Manager.waitSessionEndTick, State.emit, hStored, hCallback, dryRun, hAlive]

/-- Probes are neither `Lock`, nor `Stop`, nor teardown calls. -/
theorem probeEvents_counts (id : ID) (ticks : Nat) :
    countEvents Event.isLock (probeEvents id ticks : List (Event D)) = 0 ∧
    countEvents Event.isStop (probeEvents id ticks : List (Event D)) = 0 ∧
    countEvents Event.isTeardown (probeEvents id ticks : List (Event D)) = 0 := by
  induction ticks with
  | zero => simp [probeEvents, countEvents]
  | succ n ih =>
    simp only [countEvents] at ih
    simp [probeEvents, countEvents, Event.isLock, Event.isStop, Event.isTeardown, dryRun, ih]

/-- C11. The idle monitor never reaps a live session. For a stored session `s` whose
destroy callback answers every dry-run probe with `ErrSessionStileAlive`, after any
number of ticks of `waitSessionEnd`: the storage is the one before the ticks and `s` is
still found; the calls made are a `Find` and a dry-run probe per tick, so there is no
`Lock` (`Destroy` is not called), no `Stop` and no callback with `dryRun = false`; and
the next tick again leaves the storage unchanged and goes on to the tick after it. -/
theorem waitSessionEnd_never_reaps_live (manager : Manager D W) (s : Session Cfg W)
    (cb : DestroyCallback W) (ticks : Nat) (st : State D Cfg W)
    (hStored : st.sessionStorage.Find s.ID = some s)
    (hCallback : s.DestroyCallback = some cb)
    (hAlive : ∀ w : W, (cb true w).1 = some Error.ErrSessionStileAlive) :
    (manager.waitSessionEnd s.ID ticks st).sessionStorage = st.sessionStorage ∧
    (manager.waitSessionEnd s.ID ticks st).sessionStorage.Find s.ID = some s ∧
    (manager.waitSessionEnd s.ID ticks st).trace = st.trace ++ probeEvents s.ID ticks ∧
    countEvents Event.isLock (manager.waitSessionEnd s.ID ticks st).trace =
      countEvents Event.isLock st.trace ∧
    countEvents Event.isStop (manager.waitSessionEnd s.ID ticks st).trace =
      countEvents Event.isStop st.trace ∧
    countEvents Event.isTeardown (manager.waitSessionEnd s.ID ticks st).trace =
      countEvents Event.isTeardown st.trace ∧
    (manager.waitSessionEndTick s.ID (manager.waitSessionEnd s.ID ticks st)).1 = true ∧
    (manager.waitSessionEndTick s.ID
        (manager.waitSessionEnd s.ID ticks st)).2.sessionStorage = st.sessionStorage ∧
    (manager.waitSessionEndTick s.ID (manager.waitSessionEnd s.ID ticks st)).2.trace =
      (manager.waitSessionEnd s.ID ticks st).trace ++
        [Event.find s.ID, Event.callback s.ID true] := by
  have hRun : ∀ (n : Nat) (st0 : State D Cfg W),
      st0.sessionStorage.Find s.ID = some s →
      (manager.waitSessionEnd s.ID n st0).sessionStorage = st0.sessionStorage ∧
      (manager.waitSessionEnd s.ID n st0).trace = st0.trace ++ probeEvents s.ID n := by
    intro n
    induction n with
    | zero =>
      intro st0 _
      simp [Manager.waitSessionEnd, probeEvents]
    | succ n ih =>
      intro st0 h0
      have hTick := waitSessionEndTick_alive manager st0 s cb h0 hCallback (hAlive st0.world)
      have hNext := ih (manager.waitSessionEndTick s.ID st0).2 (by rw [hTick]; exact h0)
      simp only [Manager.waitSessionEnd]
      rw [hTick] at hNext ⊢
      simp only [if_true]
      refine ⟨hNext.1, ?_⟩
      rw [hNext.2]
      simp [probeEvents, dryRun]
  have hS := (hRun ticks st hStored).1
  have hT := (hRun ticks st hStored).2
  have hFound : (manager.waitSessionEnd s.ID ticks st).sessionStorage.Find s.ID = some s := by
    rw [hS]; exact hStored
  have hTick := waitSessionEndTick_alive manager (manager.waitSessionEnd s.ID ticks st) s cb
    hFound hCallback (hAlive _)
  have hCount := probeEvents_counts (D := D) s.ID ticks
  simp only [countEvents] at hCount
  refine ⟨hS, hFound, hT, ?_, ?_, ?_, ?_, ?_, ?_⟩
  · rw [hT]; simp [countEvents, List.filter_append, hCount.1]
  · rw [hT]; simp [countEvents, List.filter_append, hCount.2.1]
  · rw [hT]; simp [countEvents, List.filter_append, hCount.2.2]
  · rw [hTick]
  · rw [hTick]; exact hS
  · rw [hTick]

/-- Three ticks of the monitor on the session carrying `failingCallback`, whose probe
always reports the session alive, through `waitSessionEnd_never_reaps_live`. -/
theorem waitSessionEnd_never_reaps_live_witness :
    (testManager.waitSessionEnd expectedID 3 callbackState).sessionStorage =
      callbackState.sessionStorage ∧
    (testManager.waitSessionEnd expectedID 3 callbackState).trace =
      callbackState.trace ++
        [Event.find expectedID, Event.callback expectedID true,
         Event.find expectedID, Event.callback expectedID true,
         Event.find expectedID, Event.callback expectedID true] ∧
    countEvents Event.isTeardown
      (testManager.waitSessionEnd expectedID 3 callbackState).trace = 0 ∧
    (testManager.waitSessionEndTick expectedID
      (testManager.waitSessionEnd expectedID 3 callbackState)).1 = true :=
  have h := waitSessionEnd_never_reaps_live testManager
    { expectedSession with DestroyCallback := some failingCallback } failingCallback 3
    callbackState rfl rfl (fun _ => rfl)
  ⟨h.1, h.2.2.1.trans rfl, h.2.2.2.2.2.1.trans rfl, h.2.2.2.2.2.2.1⟩

/-- C12. The idle monitor reaps an inactive session. For a stored session `s` with a
destroy callback `cb` whose dry-run probe returns nil, the first tick of
`waitSessionEnd` makes a `Find` and the probe, logs, and calls
`Destroy(s.ConsumerID, s.ID)` on the state the probe left; the monitor then stops
whatever `Destroy` returned: the tick does not continue and further ticks change
nothing. When `Stop` returns nil in that `Destroy`, `s` is no longer in storage and
`cb` has been invoked with `dryRun = false` exactly once, after the removal. -/
theorem waitSessionEnd_reaps_inactive (manager : Manager D W) (st : State D Cfg W)
    (s : Session Cfg W) (cb : DestroyCallback W) (w1 : W)
    (hStored : st.sessionStorage.Find s.ID = some s)
    (hCallback : s.DestroyCallback = some cb)
    (hProbe : cb true st.world = (none, w1)) :
    (manager.waitSessionEndTick s.ID st).1 = false ∧
    (∀ ticks : Nat, manager.waitSessionEnd s.ID (ticks + 1) st =
      (manager.waitSessionEndTick s.ID st).2) ∧
    (manager.waitSessionEndTick s.ID st).2 =
      (if (manager.Destroy s.ConsumerID s.ID
            { sessionStorage := st.sessionStorage, world := w1,
              trace := st.trace ++
                [Event.find s.ID, Event.callback s.ID true, Event.logInfo] }).1 ≠ none
       then (manager.Destroy s.ConsumerID s.ID
            { sessionStorage := st.sessionStorage, world := w1,
              trace := st.trace ++
                [Event.find s.ID, Event.callback s.ID true, Event.logInfo] }).2.emit
              Event.logError
       else (manager.Destroy s.ConsumerID s.ID
            { sessionStorage := st.sessionStorage, world := w1,
              trace := st.trace ++
                [Event.find s.ID, Event.callback s.ID true, Event.logInfo] }).2) ∧
    (∀ w2 : W, manager.promiseProcessor.Stop w1 = (none, w2) →
      (manager.waitSessionEndTick s.ID st).2.sessionStorage.Find s.ID = none ∧
      (manager.waitSessionEndTick s.ID st).2.trace =
        st.trace ++
          [Event.find s.ID, Event.callback s.ID true, Event.logInfo, Event.lock,
           Event.find s.ID, Event.stop, Event.remove s.ID, Event.callback s.ID false,
           Event.unlock] ++
          (if (cb false w2).1 ≠ none then [Event.logError] else []) ∧
      countEvents (Event.isTeardownOf s.ID) (manager.waitSessionEndTick s.ID st).2.trace =
        countEvents (Event.isTeardownOf s.ID) st.trace + 1) := by
  have hMap : st.sessionStorage.sessionMap s.ID = some s := hStored
  have hTick : (manager.waitSessionEndTick s.ID st).1 = false := by
    simp [Manager.waitSessionEndTick, State.emit, hStored, hCallback, dryRun, hProbe]
  refine ⟨hTick, ?_, ?_, ?_⟩
  · intro ticks
    simp [Manager.waitSessionEnd, hTick]
  · simp [Manager.waitSessionEndTick, State.emit, hStored, hCallback, dryRun, hProbe]
  · intro w2 hStop
    by_cases hErr : (cb false w2).1 = none
    · simp [Manager.waitSessionEndTick, Manager.Destroy, State.emit, hStored, hCallback,
        dryRun, hProbe, hStop, hErr, StorageMemory.Find, StorageMemory.Remove, hMap,
        countEvents, Event.isTeardownOf, List.filter_append]
    · simp [Manager.waitSessionEndTick, Manager.Destroy, State.emit, hStored, hCallback,
        dryRun, hProbe, hStop, hErr, StorageMemory.Find, StorageMemory.Remove, hMap,
        countEvents, Event.isTeardownOf, List.filter_append]

/-- One tick of the monitor on the session carrying `idleCallback`, through
`waitSessionEnd_reaps_inactive`: the session is removed, its teardown has run once and
the monitor has stopped. -/
theorem waitSessionEnd_reaps_inactive_witness :
    (testManager.waitSessionEndTick expectedID idleState).1 = false ∧
    testManager.waitSessionEnd expectedID 5 idleState =
      (testManager.waitSessionEndTick expectedID idleState).2 ∧
    (testManager.waitSessionEndTick expectedID idleState).2.sessionStorage.Find
      expectedID = none ∧
    countEvents (Event.isTeardownOf expectedID)
      (testManager.waitSessionEndTick expectedID idleState).2.trace = 1 :=
  have h := waitSessionEnd_reaps_inactive testManager idleState
    { expectedSession with DestroyCallback := some idleCallback } idleCallback
    idleState.world rfl rfl rfl
  have hStop := h.2.2.2
    { processor := { started := false, proposal := currentProposal }, generated := 1 } rfl
  ⟨h.1, h.2.1 4, hStop.1, hStop.2.2.trans rfl⟩

/-- C14, as stated, fails. The stored session carries `brokenProbeCallback`, whose
dry-run probe returns an error that is not the still-alive sentinel. The tick does not
continue: it calls `Destroy` (one more `Lock`), the session is no longer in storage and
its teardown has run. -/
theorem waitSessionEnd_probe_error_counterexample :
    brokenProbeState.sessionStorage.Find expectedID =
      some { expectedSession with DestroyCallback := some brokenProbeCallback } ∧
    (brokenProbeCallback true brokenProbeState.world).1 =
      some (Error.other "probe failed") ∧
    Error.other "probe failed" ≠ Error.ErrSessionStileAlive ∧
    (testManager.waitSessionEndTick expectedID brokenProbeState).1 = false ∧
    (testManager.waitSessionEndTick expectedID brokenProbeState).2.sessionStorage.Find
      expectedID = none ∧
    countEvents Event.isLock
      (testManager.waitSessionEndTick expectedID brokenProbeState).2.trace =
      countEvents Event.isLock brokenProbeState.trace + 1 ∧
    countEvents Event.isTeardown
      (testManager.waitSessionEndTick expectedID brokenProbeState).2.trace = 1 := by
  refine ⟨rfl, rfl, ?_, rfl, rfl, ?_, ?_⟩ <;> decide

/-- C14, amended. For a stored session `s` whose destroy callback `cb`, on a dry-run
probe, returns an error `e` other than the still-alive sentinel, the tick of
`waitSessionEnd` logs the error and then handles the session as an inactive one: it
calls `Destroy(s.ConsumerID, s.ID)` on the state the probe left, and the monitor stops
(the tick does not continue, further ticks change nothing). When `Stop` returns nil in
that `Destroy`, the session is removed from storage and `cb` is invoked with
`dryRun = false` once. -/
theorem waitSessionEnd_probe_error_reaps (manager : Manager D W) (st : State D Cfg W)
    (s : Session Cfg W) (cb : DestroyCallback W) (e : Error) (w1 : W)
    (hStored : st.sessionStorage.Find s.ID = some s)
    (hCallback : s.DestroyCallback = some cb)
    (hProbe : cb true st.world = (some e, w1))
    (hOther : e ≠ Error.ErrSessionStileAlive) :
    (manager.waitSessionEndTick s.ID st).1 = false ∧
    (∀ ticks : Nat, manager.waitSessionEnd s.ID (ticks + 1) st =
      (manager.waitSessionEndTick s.ID st).2) ∧
    (manager.waitSessionEndTick s.ID st).2 =
      (if (manager.Destroy s.ConsumerID s.ID
            { sessionStorage := st.sessionStorage, world := w1,
              trace := st.trace ++ [Event.find s.ID, Event.callback s.ID true,
                Event.logError, Event.logInfo] }).1 ≠ none
       then (manager.Destroy s.ConsumerID s.ID
            { sessionStorage := st.sessionStorage, world := w1,
              trace := st.trace ++ [Event.find s.ID, Event.callback s.ID true,
                Event.logError, Event.logInfo] }).2.emit Event.logError
       else (manager.Destroy s.ConsumerID s.ID
            { sessionStorage := st.sessionStorage, world := w1,
              trace := st.trace ++ [Event.find s.ID, Event.callback s.ID true,
                Event.logError, Event.logInfo] }).2) ∧
    (∀ w2 : W, manager.promiseProcessor.Stop w1 = (none, w2) →
      (manager.waitSessionEndTick s.ID st).2.sessionStorage.Find s.ID = none ∧
      (manager.waitSessionEndTick s.ID st).2.trace =
        st.trace ++
          [Event.find s.ID, Event.callback s.ID true, Event.logError, Event.logInfo,
           Event.lock, Event.find s.ID, Event.stop, Event.remove s.ID,
           Event.callback s.ID false, Event.unlock] ++
          (if (cb false w2).1 ≠ none then [Event.logError] else []) ∧
      countEvents (Event.isTeardownOf s.ID) (manager.waitSessionEndTick s.ID st).2.trace =
        countEvents (Event.isTeardownOf s.ID) st.trace + 1) := by
  have hMap : st.sessionStorage.sessionMap s.ID = some s := hStored
  have hTick : (manager.waitSessionEndTick s.ID st).1 = false := by
    simp [Manager.waitSessionEndTick, State.emit, hStored, hCallback, dryRun, hProbe, hOther]
  refine ⟨hTick, ?_, ?_, ?_⟩
  · intro ticks
    simp [Manager.waitSessionEnd, hTick]
  · simp [Manager.waitSessionEndTick, State.emit, hStored, hCallback, dryRun, hProbe, hOther]
  · intro w2 hStop
    by_cases hErr : (cb false w2).1 = none
    · simp [Manager.waitSessionEndTick, Manager.Destroy, State.emit, hStored, hCallback,
        dryRun, hProbe, hOther, hStop, hErr, StorageMemory.Find, StorageMemory.Remove, hMap,
        countEvents, Event.isTeardownOf, List.filter_append]
    · simp [Manager.waitSessionEndTick, Manager.Destroy, State.emit, hStored, hCallback,
        dryRun, hProbe, hOther, hStop, hErr, StorageMemory.Find, StorageMemory.Remove, hMap,
        countEvents, Event.isTeardownOf, List.filter_append]

/-- One tick of the monitor on the session carrying `brokenProbeCallback`, through
`waitSessionEnd_probe_error_reaps`. -/
theorem waitSessionEnd_probe_error_reaps_witness :
    (testManager.waitSessionEndTick expectedID brokenProbeState).1 = false ∧
    testManager.waitSessionEnd expectedID 2 brokenProbeState =
      (testManager.waitSessionEndTick expectedID brokenProbeState).2 ∧
    (testManager.waitSessionEndTick expectedID brokenProbeState).2.sessionStorage.Find
      expectedID = none ∧
    (testManager.waitSessionEndTick expectedID brokenProbeState).2.trace =
      brokenProbeState.trace ++
        [Event.find expectedID, Event.callback expectedID true, Event.logError,
         Event.logInfo, Event.lock, Event.find expectedID, Event.stop,
         Event.remove expectedID, Event.callback expectedID false, Event.unlock] :=
  have h := waitSessionEnd_probe_error_reaps testManager brokenProbeState
    { expectedSession with DestroyCallback := some brokenProbeCallback } brokenProbeCallback
    (Error.other "probe failed") brokenProbeState.world rfl rfl rfl (by decide)
  have hStop := h.2.2.2
    { processor := { started := false, proposal := currentProposal }, generated := 1 } rfl
  ⟨h.1, h.2.1 1, hStop.1, hStop.2.1.trans rfl⟩

end Monitor

end session

/-! ## WireGuard destroy callback -/

namespace wireguard

/-- Saturation of `time.Since` does not change the comparison with two hours. -/
theorem Since_gt_two_hours (now t : Int) : Since now t > 2 * Hour ↔ now - t > 2 * Hour := by
  unfold Since
  have hMax : maxDuration = 9223372036854775807 := by norm_num [maxDuration]
  have hMin : minDuration = -9223372036854775808 := by norm_num [minDuration]
  have hHour : (2 : Int) * Hour = 7200000000000 := by norm_num [Hour, Second]
  rw [hMax, hMin, hHour]
  split_ifs <;> omega

/-- The conversion to `int64` is the identity on the `int64` range. -/
theorem wrapInt64_of_range (x : Int) (hLow : -9223372036854775808 ≤ x)
    (hHigh : x < 9223372036854775808) : wrapInt64 x = x := by
  unfold wrapInt64
  norm_num
  omega

/-- Below the wrap-around of `time.Unix`, a positive last handshake is the instant it
names. -/
theorem Unix_of_handshake (lastHandshake : Int) (hPos : 0 < lastHandshake)
    (hBelow : lastHandshake < 9223371974719179008) :
    Unix (wrapInt64 lastHandshake) 0 = lastHandshake * Second := by
  have h1 : wrapInt64 lastHandshake = lastHandshake :=
    wrapInt64_of_range lastHandshake (by omega) (by omega)
  have h2 : wrapInt64 (lastHandshake + unixToInternal) = lastHandshake + unixToInternal :=
    wrapInt64_of_range _ (by unfold unixToInternal; omega) (by unfold unixToInternal; omega)
  simp [Unix, h1, h2]

/-- C15, as stated, fails where `time.Unix` wraps around. The endpoint reports, without
error, a last handshake of `9223372036854775807` seconds (the largest `int64`), then of
`9223371974719179008` seconds. Each is non-zero and lies after the clock reading of
31 October 2018, not more than two hours before it, so the claim makes the session
alive; yet `isSessionAlive` is false and the probe returns nil. One second below,
at `9223371974719179007`, `isSessionAlive` is true. -/
theorem isSessionAlive_wrapped_handshake_counterexample :
    (reportingEndpoint.PeerStats (exampleWorld 9223372036854775807).endpoint).1 =
      (9223372036854775807, none) ∧
    (9223372036854775807 : Int) ≠ 0 ∧
    ¬ ((exampleWorld 9223372036854775807).now - 9223372036854775807 * Second > 2 * Hour) ∧
    (isSessionAlive reportingEndpoint (exampleWorld 9223372036854775807)).1 = false ∧
    (destroyCallback reportingEndpoint true (exampleWorld 9223372036854775807)).1 = none ∧
    ¬ ((exampleWorld 9223371974719179008).now - 9223371974719179008 * Second > 2 * Hour) ∧
    (isSessionAlive reportingEndpoint (exampleWorld 9223371974719179008)).1 = false ∧
    (isSessionAlive reportingEndpoint (exampleWorld 9223371974719179007)).1 = true := by
  refine ⟨rfl, ?_, ?_, ?_, ?_, ?_, ?_, ?_⟩ <;>
    simp [destroyCallback, isSessionAlive, reportingEndpoint, exampleWorld, exampleNow, Since,
      Unix, wrapInt64, unixToInternal, Second, Hour, maxDuration, minDuration]

/-- C15, amended. The destroy callback built by `ProvideConfig` separates probing from
teardown. With `dryRun = true` it calls `PeerStats` and never `Stop`, and returns
`ErrSessionStileAlive` exactly when `isSessionAlive` holds and nil otherwise. With
`dryRun = false` it returns the result of `Stop` on the endpoint and does not probe.
`isSessionAlive` is false when `PeerStats` returns an error. For a last handshake below
`9223371974719179008`, where `time.Unix` does not wrap around, it is false exactly when
`PeerStats` returns an error or the last handshake is greater than zero and more than
two hours before the clock reading, and true in every other case; a last handshake of
zero or below is always one of these other cases. -/
theorem destroyCallback_probe_and_teardown {E : Type} (ce : ConnectionEndpoint E)
    (w : World E) :
    (destroyCallback ce true w).1 =
      (if (isSessionAlive ce w).1 then some session.Error.ErrSessionStileAlive else none) ∧
    (destroyCallback ce true w).2 = (isSessionAlive ce w).2 ∧
    (destroyCallback ce true w).2.endpoint = (ce.PeerStats w.endpoint).2 ∧
    countCalls Call.isStop (destroyCallback ce true w).2.calls =
      countCalls Call.isStop w.calls ∧
    countCalls Call.isPeerStats (destroyCallback ce true w).2.calls =
      countCalls Call.isPeerStats w.calls + 1 ∧
    destroyCallback ce false w =
      ((ce.Stop w.endpoint).1,
       { endpoint := (ce.Stop w.endpoint).2, now := w.now,
         calls := w.calls ++ [Call.stop] }) ∧
    countCalls Call.isPeerStats (destroyCallback ce false w).2.calls =
      countCalls Call.isPeerStats w.calls ∧
    ((ce.PeerStats w.endpoint).1.2 ≠ none → (isSessionAlive ce w).1 = false) ∧
    ((ce.PeerStats w.endpoint).1.1 < 9223371974719179008 →
      ((isSessionAlive ce w).1 = false ↔
        ((ce.PeerStats w.endpoint).1.2 ≠ none ∨
         (0 < (ce.PeerStats w.endpoint).1.1 ∧
          w.now - (ce.PeerStats w.endpoint).1.1 * Second > 2 * Hour)))) ∧
    ((ce.PeerStats w.endpoint).1.2 = none → (ce.PeerStats w.endpoint).1.1 ≤ 0 →
      (isSessionAlive ce w).1 = true) := by
  rcases hp : ce.PeerStats w.endpoint with ⟨⟨lastHandshake, err⟩, e1⟩
  cases err with
  | some e =>
    simp [destroyCallback, isSessionAlive, hp, countCalls, Call.isStop, Call.isPeerStats,
      List.filter_append]
  | none =>
    by_cases hOld : lastHandshake > 0 ∧
        Since w.now (Unix (wrapInt64 lastHandshake) 0) > 2 * Hour
    · have hAlive : isSessionAlive ce w =
          (false, { endpoint := e1, now := w.now, calls := w.calls ++ [Call.peerStats] }) := by
        simp [isSessionAlive, hp, hOld]
      have hPos : ¬ lastHandshake ≤ 0 := by omega
      refine ⟨?_, ?_, ?_, ?_, ?_, ?_, ?_, ?_, ?_, ?_⟩
      · simp [destroyCallback, hAlive]
      · simp [destroyCallback, hAlive]
      · simp [destroyCallback, hAlive]
      · simp [destroyCallback, hAlive, countCalls, Call.isStop, List.filter_append]
      · simp [destroyCallback, hAlive, countCalls, Call.isPeerStats, List.filter_append]
      · simp [destroyCallback]
      · simp [destroyCallback, countCalls, Call.isPeerStats, List.filter_append]
      · intro h
        exact absurd rfl h
      · intro hBelow
        have hOld2 : Since w.now (lastHandshake * Second) > 2 * Hour := by
          rw [← Unix_of_handshake lastHandshake hOld.1 hBelow]
          exact hOld.2
        rw [hAlive]
        exact ⟨fun _ => Or.inr ⟨hOld.1, (Since_gt_two_hours _ _).mp hOld2⟩, fun _ => rfl⟩
      · intro _ h
        exact absurd h hPos
    · have hAlive : isSessionAlive ce w =
          (true, { endpoint := e1, now := w.now, calls := w.calls ++ [Call.peerStats] }) := by
        simp only [isSessionAlive, hp]
        rw [if_neg hOld]
      refine ⟨?_, ?_, ?_, ?_, ?_, ?_, ?_, ?_, ?_, ?_⟩
      · simp [destroyCallback, hAlive]
      · simp [destroyCallback, hAlive]
      · simp [destroyCallback, hAlive]
      · simp [destroyCallback, hAlive, countCalls, Call.isStop, List.filter_append]
      · simp [destroyCallback, hAlive, countCalls, Call.isPeerStats, List.filter_append]
      · simp [destroyCallback]
      · simp [destroyCallback, countCalls, Call.isPeerStats, List.filter_append]
      · intro h
        exact absurd rfl h
      · intro hBelow
        rw [hAlive]
        constructor
        · intro h
          exact Bool.noConfusion h
        · intro h
          rcases h with h | h
          · exact absurd rfl h
          · have hSince : Since w.now (Unix (wrapInt64 lastHandshake) 0) > 2 * Hour := by
              rw [Unix_of_handshake lastHandshake h.1 hBelow]
              exact (Since_gt_two_hours _ _).mpr h.2
            exact absurd ⟨h.1, hSince⟩ hOld
      · intro _ _
        rw [hAlive]

/-- The cases of `destroyCallback_probe_and_teardown` on the example endpoints: no
handshake yet, a handshake two hours and one second old, a handshake exactly two hours
old, a failing `PeerStats`, and a teardown. -/
theorem destroyCallback_probe_and_teardown_witness :
    (isSessionAlive reportingEndpoint (exampleWorld 0)).1 = true ∧
    (isSessionAlive reportingEndpoint (exampleWorld (1541000000 - 7201))).1 = false ∧
    ¬ (isSessionAlive reportingEndpoint (exampleWorld (1541000000 - 7200))).1 = false ∧
    (destroyCallback reportingEndpoint true (exampleWorld (1541000000 - 7200))).1 =
      some session.Error.ErrSessionStileAlive ∧
    (isSessionAlive unreachableEndpoint (exampleWorld 5)).1 = false ∧
    (destroyCallback reportingEndpoint false (exampleWorld 1)).1 =
      some (session.Error.other "stop failed") ∧
    (destroyCallback reportingEndpoint false (exampleWorld 1)).2.calls = [Call.stop] :=
  ⟨(destroyCallback_probe_and_teardown reportingEndpoint (exampleWorld 0)).2.2.2.2.2.2.2.2.2
      rfl (by decide),
   ((destroyCallback_probe_and_teardown reportingEndpoint
      (exampleWorld (1541000000 - 7201))).2.2.2.2.2.2.2.2.1 (by decide)).mpr
      (Or.inr ⟨by decide, by decide⟩),
   fun h => absurd
     (((destroyCallback_probe_and_teardown reportingEndpoint
        (exampleWorld (1541000000 - 7200))).2.2.2.2.2.2.2.2.1 (by decide)).mp h)
     (by decide),
   (destroyCallback_probe_and_teardown reportingEndpoint
      (exampleWorld (1541000000 - 7200))).1.trans (by
        simp [isSessionAlive, reportingEndpoint, exampleWorld, exampleNow, Since, Unix,
          wrapInt64, unixToInternal, Second, Hour, maxDuration, minDuration]),
   (destroyCallback_probe_and_teardown unreachableEndpoint
      (exampleWorld 5)).2.2.2.2.2.2.2.1 (by decide),
   congrArg Prod.fst
     (destroyCallback_probe_and_teardown reportingEndpoint (exampleWorld 1)).2.2.2.2.2.1,
   congrArg (fun r => r.2.calls)
     (destroyCallback_probe_and_teardown reportingEndpoint (exampleWorld 1)).2.2.2.2.2.1⟩

end wireguard
